import Mathlib

/-!
# Verification of the dot-workers job-update / job-setup orchestration pipeline

Shallow embedding of the orchestration core of the `dot-workers` repository:

* `src/services/update/handler.py` (`process_update` and its helpers),
* `src/services/setup/handler.py` (`process_setup` and its helpers),
* the record-store client `src/utils/airtable.py` (field filtering of
  `update_project`, result shapes of the other operations),
* the notification client `src/utils/connect.py` (`post_to_teams`,
  `send_confirmation`, `send_setup_confirmation`, `send_failure`,
  `_get_first_name`).

Python strings are modelled as `List Char`; Python `str` methods used by the
code (`strip`, `split`, `rsplit`, `startswith`, `endswith`, `in`) are given
faithful executable models.  External I/O (HTTP calls to Airtable, the
extraction service, the Teams bot and the mail bot) is modelled by an
environment record supplying each call's result; JSON parsing of the
extraction output is a parameter `parse` of the pipeline, applied after the
fence-stripping the handlers perform.  Each pipeline run returns its HTTP
response (or the fact that an exception escaped the handler), the bag of
per-step results it accumulated, and the ordered trace of external effects
it performed.
-/

namespace DotWorkers

/-! ## Python string primitives -/

/-- The whitespace set of Python's `str.strip()` / `str.split()`. -/
def pyWs (c : Char) : Bool :=
  c = ' ' || c = '\t' || c = '\n' || c = '\r' || c = '\x0b' || c = '\x0c'

/-- Python `s.strip()` on a character list: drop whitespace from both ends
(back first, then front — order is immaterial). -/
def pyStrip (l : List Char) : List Char :=
  ((l.reverse.dropWhile pyWs).reverse).dropWhile pyWs

/-- Strip the characters of `set` from both ends, as Python `str.strip(set)`. -/
def pyStripChars (set : List Char) (l : List Char) : List Char :=
  ((l.reverse.dropWhile (· ∈ set)).reverse).dropWhile (· ∈ set)

/-- The suffix after the first occurrence of `sep` in `l`, if `sep` occurs.
Helper for Python `str.rsplit(sep, 1)` (applied to reversed lists). -/
def afterFirstOpt (sep : List Char) : List Char → Option (List Char)
  | [] => if sep = [] then some [] else none
  | c :: cs =>
    if sep.isPrefixOf (c :: cs) then some ((c :: cs).drop sep.length)
    else afterFirstOpt sep cs

/-- Python `l.rsplit(sep, 1)[0]`: everything before the last occurrence of
`sep`, or the whole list when `sep` does not occur. -/
def rsplitBeforeLast (sep l : List Char) : List Char :=
  match afterFirstOpt sep.reverse l.reverse with
  | some r => r.reverse
  | none => l

/-- Python `s.split()` (no separator): split on whitespace runs, dropping
empty fields.  `acc` holds the current word, reversed. -/
def pySplitWsAux : List Char → List Char → List (List Char)
  | [], acc => if acc = [] then [] else [acc.reverse]
  | c :: cs, acc =>
    if pyWs c then
      (if acc = [] then pySplitWsAux cs [] else acc.reverse :: pySplitWsAux cs [])
    else pySplitWsAux cs (c :: acc)

def pySplitWs (l : List Char) : List (List Char) := pySplitWsAux l []

/-! ## `_strip_markdown_json` (identical in both handlers) -/

/-- `_strip_markdown_json` from `services/update/handler.py` (and verbatim in
`services/setup/handler.py`): strip, drop a leading code fence up to the
first newline (or just the three backticks if the text is one line), drop a
trailing code fence, strip again. -/
def strip_markdown_json (s : List Char) : List Char :=
  let c := pyStrip s
  let c :=
    if ['`', '`', '`'].isPrefixOf c then
      if '\n' ∈ c then (c.dropWhile (fun x => x ≠ '\n')).drop 1 else c.drop 3
    else c
  let c :=
    if ['`', '`', '`'].isSuffixOf c then rsplitBeforeLast ['`', '`', '`'] c
    else c
  pyStrip c

/-- A payload wrapped in the markdown fence the extraction client may emit:
three backticks, a language tag, a newline, the payload, a newline, three
closing backticks. -/
def jsonFenced (p : List Char) : List Char :=
  ['`', '`', '`', 'j', 's', 'o', 'n', '\n'] ++ p ++ ['\n', '`', '`', '`']

/-! ## `_get_working_days_from_today` (identical in both handlers) -/

/-- The `while added < days` loop of `_get_working_days_from_today`, made
structurally recursive on a fuel argument.  Days are naturals with
`d % 7 < 5` meaning Monday–Friday (day `0` is a Monday, matching Python's
`date.weekday()` numbering). -/
def wdLoop : Nat → Nat → Nat → Nat → Nat
  | 0, current, _, _ => current
  | fuel + 1, current, added, days =>
    if added < days then
      if (current + 1) % 7 < 5 then wdLoop fuel (current + 1) (added + 1) days
      else wdLoop fuel (current + 1) added days
    else current

/-- `_get_working_days_from_today(days)`: the date `days` working days after
`today` (Saturday and Sunday skipped, no holiday calendar).  `today` is the
ambient `date.today()` made explicit; the fuel `7 * days + 7` strictly
dominates the number of loop iterations. -/
def get_working_days_from_today (today : Nat) (days : Nat := 5) : Nat :=
  wdLoop (7 * days + 7) today 0 days

/-! ## Cost parsing inside `process_setup` (step "CREATE TRACKER") -/

/-- One Python `str.replace(old_char, "000")` pass. -/
def replaceChar000 (old : Char) (l : List Char) : List Char :=
  l.flatMap fun c => if c = old then ['0', '0', '0'] else [c]

/-- The character class `[\d,]` of the cost regex. -/
def isDigitOrComma (c : Char) : Bool := c.isDigit || c = ','

/-- The match of `[\d,]+(?:\.\d+)?` anchored at the head of `l` (the head is
known to be in the class): greedy run of digits/commas, then an optional
`.`‑plus‑digits fractional part. -/
def costMatchAt (l : List Char) : List Char :=
  let run := l.takeWhile isDigitOrComma
  let rest := l.drop run.length
  match rest with
  | '.' :: r2 =>
    let frac := r2.takeWhile Char.isDigit
    if frac = [] then run else run ++ '.' :: frac
  | _ => run

/-- `re.search(r'[\d,]+(?:\.\d+)?', l)`: the leftmost match, if any. -/
def costSearch : List Char → Option (List Char)
  | [] => none
  | c :: cs => if isDigitOrComma c then some (costMatchAt (c :: cs)) else costSearch cs

/-- Digit-string value (the group is digits after comma removal). -/
def natOfDigits (l : List Char) : Nat :=
  l.foldl (fun a c => 10 * a + (c.toNat - '0'.toNat)) 0

/-- The cost-parsing block of `process_setup`:
`re.search(r'[\d,]+(?:\.\d+)?', costs.replace('k','000').replace('K','000'))`
then `int(float(group.replace(',', '')))`, with `ValueError` (an empty
string reaching `float`) leaving the spend unset.  `int(float _)` truncates
the fractional part; the conversion is modelled exactly (the inputs the
pipeline sees are far below the range where binary floats round). -/
def parse_cost_spend (costs : List Char) : Option Nat :=
  match costSearch (replaceChar000 'K' (replaceChar000 'k' costs)) with
  | none => none
  | some g =>
    let cleaned := g.filter (fun c => c ≠ ',')
    if cleaned = [] then none
    else some (natOfDigits (cleaned.takeWhile Char.isDigit))

/-- `ballpark=bool(costs)` in the `create_tracker` call of `process_setup`:
true exactly when the brief carried a non-empty cost string. -/
def ballparkFlag (costs : Option (List Char)) : Bool :=
  match costs with
  | none => false
  | some s => s ≠ []

/-! ## Data model -/

/-- A value written to an Airtable field: the pipeline writes strings and
checkbox booleans. -/
inductive FieldVal
  | str (s : String)
  | boolean (b : Bool)
  deriving DecidableEq, Repr

/-- The fields of `project_info` returned by `airtable.get_project` that the
update handler reads. -/
structure ProjectInfo where
  projectName : String
  stage : String
  status : String
  withClient : Bool
  currentUpdate : String
  channelId : Option String := none
  channelUrl : Option String := none
  filesUrl : Option String := none
  teamId : Option String := none
  deriving DecidableEq, Repr

/-- The structured object `json.loads` yields from the update extraction
(`analysis` in `process_update`).  `none` models an absent key. -/
structure UpdateAnalysis where
  updateSummary : Option String := none
  updateDue : Option String := none
  stage : Option String := none
  status : Option String := none
  withClient : Option Bool := none
  teamsSubject : Option String := none
  teamsBody : Option String := none
  deriving DecidableEq, Repr

/-- The structured brief for the setup pipeline (`brief` in `process_setup`),
either supplied directly by the Hub form or extracted from the message.
`whenLive` models the brief's `when` key. -/
structure Brief where
  jobName : Option String := none
  owner : Option String := none
  costs : Option String := none
  updateDue : Option String := none
  theJob : Option String := none
  what : Option String := none
  whenLive : Option String := none
  deriving DecidableEq, Repr

/-- Python truthiness of an optional string (`None` and `''` are falsy). -/
def optTruthy : Option String → Bool
  | none => false
  | some s => s ≠ ""

/-! ## `airtable.update_project` field filtering -/

/-- `_SKIP_VALUES` of `utils/airtable.py` restricted to strings: `'Unknown'`,
`'unknown'`, `''` (the `None` member is the absent case of the `Option`). -/
def skipValueStr (s : String) : Bool :=
  s = "Unknown" || s = "unknown" || s = ""

/-- The field dict `update_project` builds for the call
`update_project(id, stage=…, status=…, with_client=…)` issued by
`process_update`: each known kwarg is mapped to its Airtable field name and
dropped when its value is `None` or a skip value (booleans, including
`False`, are never skip values). -/
def update_project_fields (stage status : Option String) (with_client : Option Bool) :
    List (String × FieldVal) :=
  (match stage with
   | none => []
   | some s => if skipValueStr s then [] else [("Stage", FieldVal.str s)]) ++
  (match status with
   | none => []
   | some s => if skipValueStr s then [] else [("Status", FieldVal.str s)]) ++
  (match with_client with
   | none => []
   | some b => [("With Client?", FieldVal.boolean b)])

/-! ## The conditional job-field patch step of `process_update` -/

/-- `new_stage and new_stage != project_info['stage']` (Python truthiness:
`None` and `''` are falsy). -/
def stageChanged (newVal : Option String) (current : String) : Bool :=
  match newVal with
  | none => false
  | some s => s ≠ "" && s ≠ current

/-- `new_with_client is not None and new_with_client != project_info['withClient']`. -/
def withClientChanged : Option Bool → Bool → Bool
  | none, _ => false
  | some b, cur => b ≠ cur

/-- The "Update project if changed" block of `process_update`: decide which
of `stage`/`status`/`withClient` changed, and call `update_project` with the
changed values only when at least one changed.  The result is `none` when
`update_project` is not called at all, and `some fields` with the field dict
`update_project` builds when it is. -/
def job_patch_step (analysis : UpdateAnalysis) (proj : ProjectInfo) :
    Option (List (String × FieldVal)) :=
  let sc := stageChanged analysis.stage proj.stage
  let stc := stageChanged analysis.status proj.status
  let wcc := withClientChanged analysis.withClient proj.withClient
  if sc || stc || wcc then
    some (update_project_fields
      (if sc then analysis.stage else none)
      (if stc then analysis.status else none)
      (if wcc then analysis.withClient else none))
  else none

/-! ## Notification client (`utils/connect.py`) -/

/-- Result dicts returned by the mail operations of `utils/connect.py`. -/
structure EmailResult where
  success : Bool
  code : Option Nat := none
  error : Option String := none
  deriving DecidableEq, Repr

/-- Result dict of `post_to_teams`. -/
structure TeamsResult where
  success : Bool
  skipped : Bool := false
  code : Option Nat := none
  error : Option String := none
  deriving DecidableEq, Repr

/-- `_get_first_name` of `utils/connect.py`.  A falsy (empty) name yields
`"there"`; otherwise `sender_name.split()[0]` is taken — which raises
`IndexError` (modelled by `Except.error`) when the name is whitespace-only,
because Python's `split()` drops empty fields — then stripped of
quote/bracket characters, falling back to `"there"` when nothing is left. -/
def get_first_name (sender_name : String) : Except Unit String :=
  if sender_name = "" then Except.ok ("there")
  else
    match pySplitWs sender_name.data with
    | [] => Except.error ()
    | w :: _ =>
      let first := pyStripChars ['"', '\'', '[', ']', '(', ')'] w
      Except.ok (if first = [] then ("there") else String.mk first)

/-- The send core shared by the three mail operations: fail when
`PA_POSTMAN_URL` is not configured, otherwise POST and report success for
status 200/202; an exception from the POST itself is caught and reported. -/
def emailSendCore (postmanConfigured : Bool) (http : Except Unit Nat) : EmailResult :=
  if postmanConfigured then
    match http with
    | Except.ok c => { success := c = 200 || c = 202, code := some c }
    | Except.error _ => { success := false, error := some ("request exception") }
  else { success := false, error := some ("PA_POSTMAN_URL not configured") }

/-- `send_failure` of `utils/connect.py`: builds the failure mail (calling
`_get_first_name`, which can raise) and sends it. -/
def send_failure (postmanConfigured : Bool) (http : Except Unit Nat)
    (sender_name : String) : Except Unit EmailResult :=
  (get_first_name sender_name).map fun _ => emailSendCore postmanConfigured http

/-- `send_confirmation` of `utils/connect.py` (update route): same raising
behaviour through `_get_first_name`, then the shared send core. -/
def send_confirmation (postmanConfigured : Bool) (http : Except Unit Nat)
    (sender_name : String) : Except Unit EmailResult :=
  (get_first_name sender_name).map fun _ => emailSendCore postmanConfigured http

/-- `send_setup_confirmation` of `utils/connect.py`. -/
def send_setup_confirmation (postmanConfigured : Bool) (http : Except Unit Nat)
    (sender_name : String) : Except Unit EmailResult :=
  (get_first_name sender_name).map fun _ => emailSendCore postmanConfigured http

/-- `post_to_teams` of `utils/connect.py`: a missing (falsy) team or channel
id yields a skipped result; a missing `PA_TEAMSBOT_URL` yields a failure
result; otherwise the POST result decides, with exceptions caught.  The
function is total — every input maps to a result dict. -/
def post_to_teams (teamsbotConfigured : Bool) (http : Except Unit Nat)
    (team_id channel_id : Option String) : TeamsResult :=
  if !optTruthy team_id || !optTruthy channel_id then
    { success := false, skipped := true, error := some ("Missing teamId or channelId") }
  else if !teamsbotConfigured then
    { success := false, error := some ("PA_TEAMSBOT_URL not configured") }
  else
    match http with
    | Except.ok c => { success := c = 200 || c = 202, code := some c }
    | Except.error _ => { success := false, error := some ("request exception") }

instance {ε α : Type} [DecidableEq ε] [DecidableEq α] : DecidableEq (Except ε α) :=
  fun x y =>
    match x, y with
    | Except.ok a, Except.ok b =>
      if h : a = b then isTrue (by rw [h])
      else isFalse (fun hc => h (by injection hc))
    | Except.error a, Except.error b =>
      if h : a = b then isTrue (by rw [h])
      else isFalse (fun hc => h (by injection hc))
    | Except.ok _, Except.error _ => isFalse (fun hc => Except.noConfusion hc)
    | Except.error _, Except.ok _ => isFalse (fun hc => Except.noConfusion hc)

/-! ## Effects, requests, environments

Each pipeline run records the ordered trace of external calls it performed.
Read effects are recorded when the helper performs its lookup; mutation
effects (`createUpdateRecord`, `patchProject`, `reserveJobNumber`,
`createProjectRecord`, `createTrackerRecord`, `createTeamsChannel`) are
recorded exactly when the corresponding write request is issued to the
record store; mail/Teams effects are recorded when the outbound POST is
issued. -/

inductive Effect
  | readEmailBody
  | readProject
  | callExtraction
  | createUpdateRecord (summary due : String)
  | patchProject (fields : List (String × FieldVal))
  | postTeamsMsg
  | mailFailure
  | mailConfirmation
  | reserveJobNumber (jobNumber : String)
  | createProjectRecord (jobNumber jobName : String)
  | createTrackerRecord (spend : Option Nat) (ballpark : Bool)
  | createTeamsChannel
  | mailSetupConfirmation
  deriving DecidableEq, Repr

/-- Which effects mutate the record store (Airtable writes; channel creation
also patches the project record with the channel ids). -/
def Effect.isStoreMutation : Effect → Bool
  | .createUpdateRecord _ _ => true
  | .patchProject _ => true
  | .reserveJobNumber _ => true
  | .createProjectRecord _ _ => true
  | .createTrackerRecord _ _ => true
  | .createTeamsChannel => true
  | _ => false

/-- An HTTP response from a handler: the `success` flag of the JSON body,
the HTTP status (Flask defaults to 200 when `jsonify` is returned without an
explicit code), and the `error` field when present. -/
structure WorkerResponse where
  success : Bool
  httpStatus : Nat
  error : Option String := none
  deriving DecidableEq, Repr

/-- Either the handler produced a response, or an exception escaped it (an
exception raised inside one of its `except` blocks). -/
inductive RunOutcome
  | responded (r : WorkerResponse)
  | escaped
  deriving DecidableEq, Repr

/-- The update request payload (`data.get(...)` defaults of
`process_update`: strings default to `''`, `teamId`/`teamsChannelId` to
`None`). -/
structure UpdateRequest where
  jobNumber : String := ""
  internetMessageId : String := ""
  senderEmail : String := ""
  senderName : String := ""
  subjectLine : String := ""
  teamId : Option String := none
  teamsChannelId : Option String := none
  filesUrl : String := ""
  hasAttachments : Bool := false
  attachmentNames : List String := []
  receivedDateTime : String := ""
  allRecipients : List String := []
  deriving DecidableEq, Repr

/-- Results of the external calls the update pipeline makes, supplied by the
environment.  `projectLookup` is the Traffic/Projects lookup outcome once
the API-key/argument gates have passed; likewise for the write results. -/
structure UpdateEnv where
  airtableConfigured : Bool := true
  todayOrd : Nat := 0
  emailBody : Option String := none
  projectLookup : Except String (String × ProjectInfo) := Except.error ("not found")
  claudeResponse : Except Unit String := Except.error ()
  writeUpdateHttp : Except String String := Except.error ("write failed")
  teamsbotConfigured : Bool := true
  teamsHttp : Except Unit Nat := Except.ok 200
  postmanConfigured : Bool := true
  mailHttp : Except Unit Nat := Except.ok 200
  deriving Repr

/-- Abstract rendering of a day ordinal as the ISO date string
`date.isoformat` produces (injective; the textual format is immaterial to
the claims). -/
def isoOfOrdinal (n : Nat) : String := toString n

/-- `airtable.get_email_body`: `None` when the key or the id is missing,
otherwise the Traffic-table lookup result. -/
def lookupEmailBody (configured : Bool) (body : Option String) (mid : String) :
    Option String :=
  if configured && mid ≠ "" then body else none

/-- `airtable.get_project` gates: missing key or job number short-circuit to
an error without touching the store. -/
def lookupProject (configured : Bool) (res : Except String (String × ProjectInfo))
    (jobNumber : String) : Except String (String × ProjectInfo) :=
  if configured && jobNumber ≠ "" then res
  else Except.error ("Missing API key or job number")

/-- Whether `airtable.write_update` issues its POST (its API-key/record-id
gates pass). -/
def writeUpdateAttempted (configured : Bool) (recordId : String) : Bool :=
  configured && recordId ≠ ""

/-- The result `airtable.write_update` returns. -/
def writeUpdateRes (configured : Bool) (res : Except String String)
    (recordId : String) : Except String String :=
  if configured && recordId ≠ "" then res
  else Except.error ("Missing API key or job record ID")

/-! ## `process_update` (`src/services/update/handler.py`) -/

/-- Per-step result bag of `process_update` (`results` dict).  The `file`
member stays `none` in this revision: the filing branch raises before
assigning it (see `process_update`). -/
structure UpdateResults where
  airtable : Option (Except String String) := none
  teams : Option TeamsResult := none
  email : Option EmailResult := none
  deriving DecidableEq, Repr

structure UpdateRun where
  outcome : RunOutcome
  results : UpdateResults
  effects : List Effect
  deriving DecidableEq, Repr

/-- The `except Exception` handler of `process_update`: best-effort failure
mail, then a 500 response; if `send_failure` itself raises (whitespace-only
sender name), the exception escapes the handler. -/
def updateExcHandler (env : UpdateEnv) (req : UpdateRequest)
    (results : UpdateResults) (effects : List Effect) (msg : String) : UpdateRun :=
  match send_failure env.postmanConfigured env.mailHttp req.senderName with
  | Except.ok _ => ⟨.responded ⟨false, 500, some msg⟩, results, effects ++ [.mailFailure]⟩
  | Except.error _ => ⟨.escaped, results, effects⟩

/-- A fatal-step return inside the `try` block that first sends a failure
mail: if `send_failure` raises, control passes to the `except Exception`
handler, whose own `send_failure` call raises identically, so the exception
escapes. -/
def updateFatal (env : UpdateEnv) (req : UpdateRequest)
    (results : UpdateResults) (effects : List Effect)
    (resp : WorkerResponse) : UpdateRun :=
  match send_failure env.postmanConfigured env.mailHttp req.senderName with
  | Except.ok _ => ⟨.responded resp, results, effects ++ [.mailFailure]⟩
  | Except.error _ => ⟨.escaped, results, effects⟩

/-- `process_update`.  `parse` models `json.loads` on the fence-stripped
extraction output (`none` = `json.JSONDecodeError`).

Steps, in source order: validate → file attachments → fetch email body →
resolve job → extract → write update → conditional project patch → Teams
post → confirmation mail.  The filing branch is modelled faithfully to this
revision: the handler calls `file.file_to_sharepoint`, but `utils/file.py`
defines only `file_to_dropbox`, so the attribute access raises
`AttributeError` (after the early `get_email_body` read for the `.eml`
artifact) and control jumps to the `except Exception` handler. -/
def process_update (parse : List Char → Option UpdateAnalysis)
    (env : UpdateEnv) (req : UpdateRequest) : UpdateRun :=
  if req.jobNumber = "" then
    ⟨.responded ⟨false, 400, some ("No job number provided")⟩, {}, []⟩
  else if req.internetMessageId = "" then
    ⟨.responded ⟨false, 400, some ("No internetMessageId provided")⟩, {}, []⟩
  else if req.hasAttachments && req.attachmentNames ≠ [] then
    -- email body fetched early for the .eml file, then the missing
    -- `file_to_sharepoint` attribute raises
    updateExcHandler env req {} [.readEmailBody]
      "module utils.file has no attribute file_to_sharepoint"
  else
    let e1 : List Effect := [.readEmailBody]
    match lookupEmailBody env.airtableConfigured env.emailBody req.internetMessageId with
    | none =>
      updateFatal env req {} e1
        ⟨false, 400, some ("Could not retrieve email body from Traffic table")⟩
    | some _emailBody =>
      let e2 := e1 ++ [.readProject]
      match lookupProject env.airtableConfigured env.projectLookup req.jobNumber with
      | Except.error msg =>
        -- `return jsonify(...)` without a status code: HTTP 200, success false
        updateFatal env req {} e2 ⟨false, 200, some msg⟩
      | Except.ok (recordId, info) =>
        let resolvedTeam := if optTruthy req.teamId then req.teamId else info.teamId
        let resolvedChannel :=
          if optTruthy req.teamsChannelId then req.teamsChannelId else info.channelId
        let e3 := e2 ++ [.callExtraction]
        match env.claudeResponse with
        | Except.error _ => updateExcHandler env req {} e3 ("extraction request failed")
        | Except.ok raw =>
          match parse (strip_markdown_json raw.data) with
          | none =>
            -- `except json.JSONDecodeError`: failure mail then 500
            match send_failure env.postmanConfigured env.mailHttp req.senderName with
            | Except.ok _ =>
              ⟨.responded ⟨false, 500, some ("Invalid JSON")⟩, {}, e3 ++ [.mailFailure]⟩
            | Except.error _ => ⟨.escaped, {}, e3⟩
          | some analysis =>
            let summary := analysis.updateSummary.getD ("")
            let dflt := isoOfOrdinal (get_working_days_from_today env.todayOrd 5)
            let due :=
              match analysis.updateDue with
              | some s => if s ≠ "" then s else dflt
              | none => dflt
            let e4 := e3 ++
              (if writeUpdateAttempted env.airtableConfigured recordId then
                 [.createUpdateRecord summary due]
               else [])
            match writeUpdateRes env.airtableConfigured env.writeUpdateHttp recordId with
            | Except.error werr =>
              -- fatal: record the failure, mail, `jsonify` without status → 200
              updateFatal env req { airtable := some (Except.error werr) } e4
                ⟨false, 200, some werr⟩
            | Except.ok updateRecordId =>
              let results1 : UpdateResults := { airtable := some (Except.ok updateRecordId) }
              let e5 := e4 ++
                (match job_patch_step analysis info with
                 | none => []
                 | some fields =>
                   if env.airtableConfigured && recordId ≠ "" && fields ≠ [] then
                     [.patchProject fields]
                   else [])
              let teamsRes :=
                post_to_teams env.teamsbotConfigured env.teamsHttp resolvedTeam resolvedChannel
              let results2 := { results1 with teams := some teamsRes }
              let e6 := e5 ++
                (if optTruthy resolvedTeam && optTruthy resolvedChannel &&
                    env.teamsbotConfigured then [.postTeamsMsg] else [])
              match send_confirmation env.postmanConfigured env.mailHttp req.senderName with
              | Except.error _ =>
                -- raised inside try; the except handler's send_failure raises too
                ⟨.escaped, results2, e6⟩
              | Except.ok emailRes =>
                ⟨.responded ⟨true, 200, none⟩,
                 { results2 with email := some emailRes },
                 e6 ++ [.mailConfirmation]⟩

/-! ## `process_setup` (`src/services/setup/handler.py`) -/

/-- The setup request payload.  `brief = none` models an absent or falsy
`brief` value (`None` or an empty dict). -/
structure SetupRequest where
  clientCode : String := ""
  clientName : String := ""
  internetMessageId : String := ""
  senderEmail : String := ""
  senderName : String := ""
  subjectLine : String := ""
  brief : Option Brief := none
  deriving DecidableEq, Repr

/-- Result dict of `utils.setup.setup_teams_channel` (treated as a leaf
collaborator: the environment supplies the dict it returns when called). -/
structure ChannelResult where
  success : Bool
  skipped : Bool := false
  channelId : Option String := none
  channelUrl : Option String := none
  filesUrl : Option String := none
  error : Option String := none
  deriving DecidableEq, Repr

/-- Environment for the setup pipeline.  `reserve` is the
`get_next_job_number` outcome once its gates pass: job number, client record
id, and the client's optional Teams id. -/
structure SetupEnv where
  airtableConfigured : Bool := true
  todayOrd : Nat := 0
  emailBody : Option String := none
  claudeResponse : Except Unit String := Except.error ()
  reserve : Except String (String × String × Option String) := Except.error ("not found")
  createProjectHttp : Except String String := Except.error ("create failed")
  createTrackerHttp : Except String String := Except.error ("create failed")
  channelResult : ChannelResult := { success := false }
  sharepointUrl : Option String := none
  teamsbotConfigured : Bool := true
  teamsHttp : Except Unit Nat := Except.ok 200
  postmanConfigured : Bool := true
  mailHttp : Except Unit Nat := Except.ok 200
  deriving Repr

/-- Per-step result bag of `process_setup` (`results` dict). -/
structure SetupResults where
  brief : Option Brief := none
  project : Option (Except String String) := none
  tracker : Option (Except String String) := none
  channel : Option ChannelResult := none
  teamsPost : Option TeamsResult := none
  email : Option EmailResult := none
  deriving DecidableEq, Repr

structure SetupRun where
  outcome : RunOutcome
  results : SetupResults
  effects : List Effect
  deriving DecidableEq, Repr

/-- The `except Exception` handler of `process_setup` (same double-raise
behaviour as the update handler's). -/
def setupExcHandler (env : SetupEnv) (req : SetupRequest)
    (results : SetupResults) (effects : List Effect) (msg : String) : SetupRun :=
  match send_failure env.postmanConfigured env.mailHttp req.senderName with
  | Except.ok _ => ⟨.responded ⟨false, 500, some msg⟩, results, effects ++ [.mailFailure]⟩
  | Except.error _ => ⟨.escaped, results, effects⟩

/-- A fatal-step return inside `process_setup`'s `try` block: failure mail,
then the given response. -/
def setupFatal (env : SetupEnv) (req : SetupRequest)
    (results : SetupResults) (effects : List Effect)
    (resp : WorkerResponse) : SetupRun :=
  match send_failure env.postmanConfigured env.mailHttp req.senderName with
  | Except.ok _ => ⟨.responded resp, results, effects ++ [.mailFailure]⟩
  | Except.error _ => ⟨.escaped, results, effects⟩

/-- The description composed for the new project record: non-empty `theJob`
and `what` brief fields joined with `' | '`, `None` when both are empty. -/
def briefDescription (brief : Brief) : Option String :=
  let parts :=
    (match brief.theJob with
     | some s => if s ≠ "" then [s] else []
     | none => []) ++
    (match brief.what with
     | some s => if s ≠ "" then [s] else []
     | none => [])
  match parts with
  | [] => none
  | ps => some (String.intercalate (" | ") ps)

/-- The tail of `process_setup` shared by both entry paths, from "RESERVE
JOB NUMBER" onward.  `emailBodyLocal` is the `email_body` Python local:
`some` when the email path assigned it, `none` on the Hub-form path, where
it was never assigned — so the `original_email` construction in the
confirmation step raises `UnboundLocalError`. -/
def setupAfterBrief (env : SetupEnv) (req : SetupRequest) (brief : Brief)
    (emailBodyLocal : Option String) (e0 : List Effect) : SetupRun :=
  let results0 : SetupResults := { brief := some brief }
  let jobName := brief.jobName.getD ("New Job")
  let dflt := isoOfOrdinal (get_working_days_from_today env.todayOrd 5)
  let _updateDue :=
    match brief.updateDue with
    | some s => if s ≠ "" then s else dflt
    | none => dflt
  -- 3. RESERVE JOB NUMBER
  let reserveRes :=
    if env.airtableConfigured && req.clientCode ≠ "" then env.reserve
    else Except.error ("Missing API key or client code")
  match reserveRes with
  | Except.error msg => setupFatal env req results0 e0 ⟨false, 400, some msg⟩
  | Except.ok (jobNumber, _clientRecordId, teamId) =>
    let e1 := e0 ++ [.reserveJobNumber jobNumber]
    -- 4. CREATE PROJECT
    let cpAttempted := env.airtableConfigured && (jobNumber ≠ "" && jobName ≠ "")
    let cpRes :=
      if env.airtableConfigured then
        if jobNumber ≠ "" && jobName ≠ "" then env.createProjectHttp
        else Except.error ("Missing job number or job name")
      else Except.error ("Missing API key")
    let e2 := e1 ++ (if cpAttempted then [.createProjectRecord jobNumber jobName] else [])
    match cpRes with
    | Except.error msg =>
      setupFatal env req { results0 with project := some (Except.error msg) } e2
        ⟨false, 400, some msg⟩
    | Except.ok projectRecordId =>
      let results1 := { results0 with project := some (Except.ok projectRecordId) }
      -- 5. CREATE TRACKER (non-fatal)
      let spend :=
        match brief.costs with
        | some c => if c ≠ "" then parse_cost_spend c.data else none
        | none => none
      let ballpark := ballparkFlag (brief.costs.map String.data)
      let ctAttempted := env.airtableConfigured && projectRecordId ≠ ""
      let ctRes :=
        if ctAttempted then env.createTrackerHttp
        else Except.error ("Missing API key or project record ID")
      let e3 := e2 ++ (if ctAttempted then [.createTrackerRecord spend ballpark] else [])
      let results2 := { results1 with tracker := some ctRes }
      -- 6. CREATE TEAMS CHANNEL (non-fatal)
      let channelRes :=
        if optTruthy teamId then env.channelResult
        else { success := false, skipped := true,
               error := some ("No Team ID configured") }
      let e4 := e3 ++ (if optTruthy teamId then [.createTeamsChannel] else [])
      let results3 := { results2 with channel := some channelRes }
      -- 7. POST BRIEF TO TEAMS (non-fatal)
      let channelId := channelRes.channelId
      let teamsPostRes :=
        if !optTruthy teamId || !optTruthy channelId then
          { success := false, skipped := true }
        else post_to_teams env.teamsbotConfigured env.teamsHttp teamId channelId
      let e5 := e4 ++
        (if !optTruthy teamId || !optTruthy channelId then []
         else if env.teamsbotConfigured then [.postTeamsMsg] else [])
      let results4 := { results3 with teamsPost := some teamsPostRes }
      -- 8. SEND CONFIRMATION EMAIL — builds original_email referencing the
      -- email_body local first
      match emailBodyLocal with
      | none =>
        setupExcHandler env req results4 e5
          "local variable email_body referenced before assignment"
      | some _ =>
        match send_setup_confirmation env.postmanConfigured env.mailHttp req.senderName with
        | Except.error _ => ⟨.escaped, results4, e5⟩
        | Except.ok emailRes =>
          ⟨.responded ⟨true, 200, none⟩,
           { results4 with email := some emailRes },
           e5 ++ [.mailSetupConfirmation]⟩

/-- `process_setup`.  Two entry paths: a directly supplied brief (Hub form,
no extraction), or fetch-and-extract from the message identified by
`internetMessageId`. -/
def process_setup (parse : List Char → Option Brief)
    (env : SetupEnv) (req : SetupRequest) : SetupRun :=
  if req.clientCode = "" then
    ⟨.responded ⟨false, 400, some ("No client code provided")⟩, {}, []⟩
  else if req.internetMessageId = "" && req.brief = none then
    ⟨.responded ⟨false, 400, some ("No internetMessageId or brief provided")⟩, {}, []⟩
  else
    match req.brief with
    | some b =>
      -- Hub form path: use the brief as-is; email_body is never assigned
      setupAfterBrief env req b none []
    | none =>
      let e1 : List Effect := [.readEmailBody]
      match lookupEmailBody env.airtableConfigured env.emailBody req.internetMessageId with
      | none =>
        setupFatal env req {} e1
          ⟨false, 400, some ("Could not retrieve email body from Traffic table")⟩
      | some body =>
        let e2 := e1 ++ [.callExtraction]
        match env.claudeResponse with
        | Except.error _ => setupExcHandler env req {} e2 ("extraction request failed")
        | Except.ok raw =>
          match parse (strip_markdown_json raw.data) with
          | none =>
            match send_failure env.postmanConfigured env.mailHttp req.senderName with
            | Except.ok _ =>
              ⟨.responded ⟨false, 500, some ("Invalid JSON")⟩, {}, e2 ++ [.mailFailure]⟩
            | Except.error _ => ⟨.escaped, {}, e2⟩
          | some b => setupAfterBrief env req b (some body) e2

/-! ## Lemmas: fence stripping (`_strip_markdown_json`) -/

lemma pyStrip_jsonFenced (p : List Char) : pyStrip (jsonFenced p) = jsonFenced p := by
  simp [pyStrip, jsonFenced, List.reverse_append, List.dropWhile, pyWs]

lemma pyStrip_append_newline (p : List Char) : pyStrip (p ++ ['\n']) = pyStrip p := by
  simp [pyStrip, List.reverse_append, List.dropWhile, pyWs]

lemma rsplit_trailing_fence (p : List Char) :
    rsplitBeforeLast ['`', '`', '`'] (p ++ ['\n', '`', '`', '`']) = p ++ ['\n'] := by
  simp [rsplitBeforeLast, List.reverse_append, afterFirstOpt, List.isPrefixOf]

/-- Stripping a fenced payload recovers the payload up to outer whitespace:
the leading ```` ```json ```` line and the trailing ```` ``` ```` fence are
removed exactly. -/
lemma strip_markdown_json_jsonFenced (p : List Char) :
    strip_markdown_json (jsonFenced p) = pyStrip p := by
  rw [strip_markdown_json, pyStrip_jsonFenced]
  simp [jsonFenced, List.isPrefixOf, List.dropWhile]
  rw [if_pos ⟨p ++ ['\n'], by simp⟩, rsplit_trailing_fence, pyStrip_append_newline]

/-! ## Lemmas: working-day arithmetic (`_get_working_days_from_today`) -/

/-- Days in `(t, r]` that are working days (Monday–Friday), with day `d` a
working day iff `d % 7 < 5` (day 0 is a Monday, matching `date.weekday`). -/
def workingDaysBetween (t r : Nat) : Nat :=
  ((List.range (r - t)).filter (fun i => decide ((t + 1 + i) % 7 < 5))).length

lemma wdLoop_add7 : ∀ (fuel c a d : Nat), wdLoop fuel (c + 7) a d = wdLoop fuel c a d + 7 := by
  intro fuel
  induction fuel with
  | zero => intro c a d; rfl
  | succ n ih =>
    intro c a d
    simp only [wdLoop]
    have hc : c + 7 + 1 = c + 1 + 7 := by omega
    rw [hc, Nat.add_mod_right]
    split_ifs with h1 h2
    · exact ih (c + 1) (a + 1) d
    · exact ih (c + 1) a d
    · rfl

lemma gwd_add7 (c d : Nat) :
    get_working_days_from_today (c + 7) d = get_working_days_from_today c d + 7 :=
  wdLoop_add7 _ c 0 d

lemma gwd_add_mul7 (r k d : Nat) :
    get_working_days_from_today (r + 7 * k) d = get_working_days_from_today r d + 7 * k := by
  induction k with
  | zero => simp
  | succ n ih =>
    have h : r + 7 * (n + 1) = r + 7 * n + 7 := by ring
    rw [h, gwd_add7, ih]; ring

/-- The loop's result depends on the start day only through its weekday. -/
lemma gwd_decompose (t d : Nat) :
    get_working_days_from_today t d = get_working_days_from_today (t % 7) d + 7 * (t / 7) := by
  conv_lhs => rw [← Nat.mod_add_div t 7]
  exact gwd_add_mul7 _ _ _

lemma wdb_shift (r q target : Nat) :
    workingDaysBetween (r + 7 * q) (target + 7 * q) = workingDaysBetween r target := by
  unfold workingDaysBetween
  have hsub : target + 7 * q - (r + 7 * q) = target - r := by omega
  rw [hsub]
  congr 1
  apply List.filter_congr
  intro i _
  have h : r + 7 * q + 1 + i = r + 1 + i + 7 * q := by ring
  rw [h, Nat.add_mul_mod_self_left]

lemma gwd_base : ∀ r, r < 7 →
    workingDaysBetween r (get_working_days_from_today r 5) = 5 ∧
    get_working_days_from_today r 5 % 7 < 5 := by decide

/-- The default due date is exactly 5 working days ahead of today, and lands
on a working day. -/
lemma gwd_working_count (t : Nat) :
    workingDaysBetween t (get_working_days_from_today t 5) = 5 ∧
    get_working_days_from_today t 5 % 7 < 5 := by
  have hm : t % 7 < 7 := Nat.mod_lt _ (by norm_num)
  have hd := gwd_decompose t 5
  refine ⟨?_, ?_⟩
  · have hs := wdb_shift (t % 7) (t / 7) (get_working_days_from_today (t % 7) 5)
    have ht : t % 7 + 7 * (t / 7) = t := Nat.mod_add_div t 7
    rw [ht] at hs
    rw [hd, hs]
    exact (gwd_base _ hm).1
  · rw [hd, Nat.add_mul_mod_self_left]
    exact (gwd_base _ hm).2

lemma gwd_friday (t : Nat) (h : t % 7 = 4) : get_working_days_from_today t 5 = t + 7 := by
  have hd := gwd_decompose t 5
  rw [h] at hd
  have h4 : get_working_days_from_today 4 5 = 11 := by decide
  rw [h4] at hd
  have hdm := Nat.div_add_mod t 7
  omega

lemma gwd_monday (t : Nat) (h : t % 7 = 0) : get_working_days_from_today t 5 = t + 7 := by
  have hd := gwd_decompose t 5
  rw [h] at hd
  have h0 : get_working_days_from_today 0 5 = 7 := by decide
  rw [h0] at hd
  have hdm := Nat.div_add_mod t 7
  omega

/-! ## Lemmas: the conditional job-field patch step -/

lemma stageChanged_iff (o : Option String) (cur : String) :
    stageChanged o cur = true ↔ ∃ s, o = some s ∧ s ≠ "" ∧ s ≠ cur := by
  cases o <;> simp [stageChanged]

lemma withClientChanged_iff (o : Option Bool) (cur : Bool) :
    withClientChanged o cur = true ↔ ∃ b, o = some b ∧ b ≠ cur := by
  cases o <;> simp [withClientChanged]

lemma mem_upf_stage (st stt : Option String) (wc : Option Bool) (v : FieldVal) :
    ("Stage", v) ∈ update_project_fields st stt wc ↔
      ∃ s, st = some s ∧ skipValueStr s = false ∧ v = FieldVal.str s := by
  unfold update_project_fields
  cases st <;> cases stt <;> cases wc <;> simp_all

lemma mem_upf_status (st stt : Option String) (wc : Option Bool) (v : FieldVal) :
    ("Status", v) ∈ update_project_fields st stt wc ↔
      ∃ s, stt = some s ∧ skipValueStr s = false ∧ v = FieldVal.str s := by
  unfold update_project_fields
  cases st <;> cases stt <;> cases wc <;> simp_all

lemma mem_upf_withClient (st stt : Option String) (wc : Option Bool) (v : FieldVal) :
    ("With Client?", v) ∈ update_project_fields st stt wc ↔
      ∃ b, wc = some b ∧ v = FieldVal.boolean b := by
  unfold update_project_fields
  cases st <;> cases stt <;> cases wc <;> simp_all

/-- A `Stage` write is issued only for a present, non-placeholder value that
differs from the stored one. -/
lemma job_patch_stage_only_if (analysis : UpdateAnalysis) (proj : ProjectInfo)
    (fields : List (String × FieldVal)) (v : FieldVal)
    (h : job_patch_step analysis proj = some fields)
    (hmem : ("Stage", v) ∈ fields) :
    ∃ s, analysis.stage = some s ∧ s ≠ "" ∧ s ≠ proj.stage ∧
      skipValueStr s = false ∧ v = FieldVal.str s := by
  unfold job_patch_step at h
  dsimp only at h
  split at h
  · injection h with h'
    subst h'
    rw [mem_upf_stage] at hmem
    obtain ⟨s, hs, hskip, hv⟩ := hmem
    by_cases hsc : stageChanged analysis.stage proj.stage = true
    · rw [if_pos hsc] at hs
      obtain ⟨s', hs', hne, hnc⟩ := (stageChanged_iff _ _).mp hsc
      rw [hs'] at hs
      injection hs with h2
      subst h2
      exact ⟨s', hs', hne, hnc, hskip, hv⟩
    · rw [if_neg hsc] at hs; exact absurd hs (by simp)
  · exact absurd h (by simp)

/-- A `Status` write is issued only for a present, non-placeholder value
that differs from the stored one. -/
lemma job_patch_status_only_if (analysis : UpdateAnalysis) (proj : ProjectInfo)
    (fields : List (String × FieldVal)) (v : FieldVal)
    (h : job_patch_step analysis proj = some fields)
    (hmem : ("Status", v) ∈ fields) :
    ∃ s, analysis.status = some s ∧ s ≠ "" ∧ s ≠ proj.status ∧
      skipValueStr s = false ∧ v = FieldVal.str s := by
  unfold job_patch_step at h
  dsimp only at h
  split at h
  · injection h with h'
    subst h'
    rw [mem_upf_status] at hmem
    obtain ⟨s, hs, hskip, hv⟩ := hmem
    by_cases hsc : stageChanged analysis.status proj.status = true
    · rw [if_pos hsc] at hs
      obtain ⟨s', hs', hne, hnc⟩ := (stageChanged_iff _ _).mp hsc
      rw [hs'] at hs
      injection hs with h2
      subst h2
      exact ⟨s', hs', hne, hnc, hskip, hv⟩
    · rw [if_neg hsc] at hs; exact absurd hs (by simp)
  · exact absurd h (by simp)

/-- A non-null extracted `withClient` differing from the stored value is
always written, including a transition to `false`. -/
lemma job_patch_withClient_always (analysis : UpdateAnalysis) (proj : ProjectInfo)
    (b : Bool) (hb : analysis.withClient = some b) (hne : b ≠ proj.withClient) :
    ∃ fields, job_patch_step analysis proj = some fields ∧
      ("With Client?", FieldVal.boolean b) ∈ fields := by
  have hwcc : withClientChanged analysis.withClient proj.withClient = true :=
    (withClientChanged_iff _ _).mpr ⟨b, hb, hne⟩
  unfold job_patch_step
  dsimp only
  rw [hwcc]
  simp only [Bool.or_true, if_true]
  refine ⟨_, rfl, ?_⟩
  rw [mem_upf_withClient]
  exact ⟨b, hb, rfl⟩

/-! ## Lemmas: the Hub-form (brief) path performs no extraction call -/

set_option maxHeartbeats 2000000 in
/-- The shared pipeline tail after the brief is obtained adds no
extraction-call effect. -/
lemma setupAfterBrief_effects_no_extraction (env : SetupEnv) (req : SetupRequest)
    (brief : Brief) (ebl : Option String) (e0 : List Effect)
    (h : Effect.callExtraction ∉ e0) :
    Effect.callExtraction ∉ (setupAfterBrief env req brief ebl e0).effects := by
  unfold setupAfterBrief setupFatal setupExcHandler
  dsimp only
  repeat' split
  all_goals simp only [List.mem_append, List.mem_cons, List.not_mem_nil, or_false,
    false_or, not_or] at *
  all_goals repeat' apply And.intro
  all_goals first
    | exact h
    | simp

/-! ## Concrete fixtures for witnesses and counterexamples -/

/-- A Hub-form brief. -/
def exBrief : Brief :=
  { jobName := some ("Election Campaign"), theJob := some ("Make ads"),
    costs := some ("$2k"), owner := some ("Pat") }

/-- A setup environment in which every external call succeeds. -/
def exSetupEnv : SetupEnv :=
  { emailBody := some ("please set up a new job")
  , claudeResponse := Except.ok ("raw")
  , reserve := Except.ok ("LAB 056", "recC1", some ("team1"))
  , createProjectHttp := Except.ok ("recP1")
  , createTrackerHttp := Except.ok ("recT1")
  , channelResult := { success := true, channelId := some ("ch1"),
                       channelUrl := some ("https://teams/ch1") } }

/-- A Hub-form setup request: `brief` supplied directly, no message id. -/
def exSetupReqHub : SetupRequest :=
  { clientCode := "LAB", senderEmail := "sam@client.nz", senderName := "Sam Smith",
    subjectLine := "New job please", brief := some exBrief }

/-- An email-path setup request. -/
def exSetupReqEmail : SetupRequest :=
  { clientCode := "LAB", internetMessageId := "mid1", senderEmail := "sam@client.nz",
    senderName := "Sam Smith", subjectLine := "New job please" }

/-- The current job state used in the patch-merge scenarios. -/
def exPatchProj : ProjectInfo :=
  { projectName := "Landing Page", stage := "Triage", status := "Incoming",
    withClient := false, currentUpdate := "", channelId := some ("ch9"),
    teamId := some ("tm9") }

/-- An update environment in which every external call succeeds. -/
def exUpdateEnv : UpdateEnv :=
  { emailBody := some ("Finished the landing page design")
  , projectLookup := Except.ok ("recJ1", exPatchProj)
  , claudeResponse := Except.ok ("raw")
  , writeUpdateHttp := Except.ok ("recU1") }

/-- A plain update request (no attachments). -/
def exUpdateReq : UpdateRequest :=
  { jobNumber := "LAB 055", internetMessageId := "mid1",
    senderEmail := "sam@client.nz", senderName := "Sam Smith",
    subjectLine := "Landing page" }

/-- An extraction result for the update pipeline: summary plus a status
transition. -/
def exAnalysis : UpdateAnalysis :=
  { updateSummary := some ("Landing page design complete"),
    stage := some ("Triage"), status := some ("Live"), withClient := some false }

/-- The claim's fenced extraction output, written with explicit brace
escapes. -/
def exampleFencedPayload : List Char :=
  "```json\n\x7b\"updateSummary\":\"ok\"\x7d\n```".data

/-- The corresponding bare JSON payload. -/
def exampleBarePayload : List Char :=
  "\x7b\"updateSummary\":\"ok\"\x7d".data

/-! ## Claim theorems -/

/-- **C4** — Patch-merge semantics of the update pipeline's job-field step.
With current `(stage Triage, status Incoming, withClient false)` and
extraction `(stage Triage, status Live, withClient false)`, exactly the
`Status` field is written; an extraction providing only `withClient = true`
triggers a `With Client?` write although stage/status are absent.  In
general a stage/status field is written only when the extracted value is
present (truthy), differs from the current value, and is not a skip
placeholder (`Unknown`/`unknown`/`''`), while a non-null `withClient`
differing from the stored value is always written, including `false`. -/
theorem C4_patch_merge_semantics :
    (job_patch_step
        { stage := some ("Triage"), status := some ("Live"), withClient := some false }
        exPatchProj
      = some [("Status", FieldVal.str ("Live"))])
    ∧ (job_patch_step { withClient := some true } exPatchProj
        = some [("With Client?", FieldVal.boolean true)])
    ∧ (∀ (analysis : UpdateAnalysis) (proj : ProjectInfo)
          (fields : List (String × FieldVal)) (v : FieldVal),
        job_patch_step analysis proj = some fields → ("Stage", v) ∈ fields →
        ∃ s, analysis.stage = some s ∧ s ≠ "" ∧ s ≠ proj.stage ∧
          skipValueStr s = false ∧ v = FieldVal.str s)
    ∧ (∀ (analysis : UpdateAnalysis) (proj : ProjectInfo)
          (fields : List (String × FieldVal)) (v : FieldVal),
        job_patch_step analysis proj = some fields → ("Status", v) ∈ fields →
        ∃ s, analysis.status = some s ∧ s ≠ "" ∧ s ≠ proj.status ∧
          skipValueStr s = false ∧ v = FieldVal.str s)
    ∧ (∀ (analysis : UpdateAnalysis) (proj : ProjectInfo) (b : Bool),
        analysis.withClient = some b → b ≠ proj.withClient →
        ∃ fields, job_patch_step analysis proj = some fields ∧
          ("With Client?", FieldVal.boolean b) ∈ fields) :=
  ⟨by decide, by decide,
   fun analysis proj fields v h hm => job_patch_stage_only_if analysis proj fields v h hm,
   fun analysis proj fields v h hm => job_patch_status_only_if analysis proj fields v h hm,
   fun analysis proj b hb hne => job_patch_withClient_always analysis proj b hb hne⟩

/-- Witness for C4: the general parts applied at concrete inputs. -/
theorem C4_patch_merge_semantics_witness :
    (∃ s, ({ stage := some ("Live") } : UpdateAnalysis).stage = some s ∧ s ≠ "" ∧
      s ≠ exPatchProj.stage ∧ skipValueStr s = false ∧ FieldVal.str ("Live") = FieldVal.str s)
    ∧ (∃ fields, job_patch_step ({ withClient := some true } : UpdateAnalysis) exPatchProj
          = some fields ∧ ("With Client?", FieldVal.boolean true) ∈ fields) :=
  ⟨C4_patch_merge_semantics.2.2.1 { stage := some ("Live") } exPatchProj
     [("Stage", FieldVal.str ("Live"))] (FieldVal.str ("Live")) (by decide) (by decide),
   C4_patch_merge_semantics.2.2.2.2 { withClient := some true } exPatchProj true
     (by decide) (by decide)⟩

/-- **C6** — The default due-date helper returns the date 5 working days
ahead (Monday–Friday only, no holidays): the result is 5 working days after
`today` and lands on a working day; called on a Friday (`t % 7 = 4`, day 0
being a Monday as in `date.weekday`) it returns the following Friday
(`t + 7`), and called on a Monday (`t % 7 = 0`) the following Monday. -/
theorem C6_default_due_five_working_days :
    (∀ t : Nat, workingDaysBetween t (get_working_days_from_today t 5) = 5 ∧
        get_working_days_from_today t 5 % 7 < 5)
    ∧ (∀ t : Nat, t % 7 = 4 → get_working_days_from_today t 5 = t + 7)
    ∧ (∀ t : Nat, t % 7 = 0 → get_working_days_from_today t 5 = t + 7) :=
  ⟨gwd_working_count, gwd_friday, gwd_monday⟩

/-- Witness for C6: a concrete Friday (day 11) and Monday (day 14). -/
theorem C6_default_due_five_working_days_witness :
    (11 % 7 = 4 ∧ get_working_days_from_today 11 5 = 11 + 7)
    ∧ (14 % 7 = 0 ∧ get_working_days_from_today 14 5 = 14 + 7)
    ∧ workingDaysBetween 3 (get_working_days_from_today 3 5) = 5 :=
  ⟨⟨by decide, C6_default_due_five_working_days.2.1 11 (by decide)⟩,
   ⟨by decide, C6_default_due_five_working_days.2.2 14 (by decide)⟩,
   (C6_default_due_five_working_days.1 3).1⟩

/-- **C7** — Fence stripping is semantically transparent: for any parse
function, parsing the strip of a fenced payload equals parsing the bare
payload (when the payload carries no outer whitespace, as `json.loads`
output equivalence requires); on the claim's concrete input the strip of
the fenced text is exactly the bare text. -/
theorem C7_fence_strip_parse_transparent :
    (∀ (α : Type) (jsonLoads : List Char → α) (p : List Char), pyStrip p = p →
        jsonLoads (strip_markdown_json (jsonFenced p)) = jsonLoads p)
    ∧ strip_markdown_json exampleFencedPayload = exampleBarePayload := by
  constructor
  · intro α jsonLoads p hp
    rw [strip_markdown_json_jsonFenced, hp]
  · decide

/-- Witness for C7: the general part applied to the concrete payload with
`List.length` as the parse function. -/
theorem C7_fence_strip_parse_transparent_witness :
    pyStrip exampleBarePayload = exampleBarePayload ∧
    List.length (strip_markdown_json (jsonFenced exampleBarePayload)) =
      List.length exampleBarePayload :=
  ⟨by decide,
   C7_fence_strip_parse_transparent.1 Nat List.length exampleBarePayload (by decide)⟩

/-- **C9** — The claim states the notification operations are total and
never raise.  The channel-post operation is total (a missing team or
channel id yields a skipped result), but each mail operation calls
`_get_first_name`, which evaluates `sender_name.split()[0]` — and Python's
`split()` drops empty fields, so a whitespace-only sender name makes `[0]`
raise `IndexError`.  This theorem evaluates the model at the failing input
`sender_name = " "`: all three mail operations raise (`Except.error`)
instead of returning a result, while the channel post with a missing team
id returns the skipped result as claimed. -/
theorem C9_whitespace_sender_name_raises :
    get_first_name (" ") = Except.error ()
    ∧ send_failure true (Except.ok 200) (" ") = Except.error ()
    ∧ send_confirmation true (Except.ok 200) (" ") = Except.error ()
    ∧ send_setup_confirmation true (Except.ok 200) (" ") = Except.error ()
    ∧ post_to_teams true (Except.ok 200) none (some ("ch1")) =
        { success := false, skipped := true,
          error := some ("Missing teamId or channelId") }
    ∧ get_first_name ("Sam Smith") = Except.ok ("Sam") := by
  decide

/-- A setup request supplying *both* a message id and a direct brief. -/
def exSetupReqBoth : SetupRequest := { exSetupReqHub with internetMessageId := "mid1" }

/-- An update request carrying attachments. -/
def exUpdateReqAttach : UpdateRequest :=
  { exUpdateReq with hasAttachments := true, attachmentNames := ["brief.pdf"] }

/-- `true` exactly on UpdateRecord-creation effects. -/
def isCreateUpdate : Effect → Bool
  | .createUpdateRecord _ _ => true
  | _ => false

/-- `true` exactly on JobRecord-patch effects. -/
def isPatchProject : Effect → Bool
  | .patchProject _ => true
  | _ => false

set_option maxHeartbeats 4000000 in
/-- **C1** — Evaluation at the failing input of the claim.  With `brief`
supplied directly, a valid `clientCode`, and an environment in which every
external call succeeds, the run does skip extraction (no `callExtraction`
effect) and does reserve the job number and create the JobRecord — but it
then crashes while building `original_email` for the confirmation step: the
`email_body` local is only assigned on the email path, so the Hub-form path
raises `UnboundLocalError` there.  The handler's `except` block sends a
*failure* mail and returns HTTP 500 with `success:false`; the confirmation
email is never sent, contradicting the claim (and the code's own docstring,
which promises "Send confirmation email" on this very path). -/
theorem C1_hub_brief_path_crashes_before_confirmation :
    (process_setup (fun _ => none) exSetupEnv exSetupReqHub).effects =
      [Effect.reserveJobNumber ("LAB 056"),
       Effect.createProjectRecord ("LAB 056") ("Election Campaign"),
       Effect.createTrackerRecord (some 2000) true,
       Effect.createTeamsChannel,
       Effect.postTeamsMsg,
       Effect.mailFailure]
    ∧ (process_setup (fun _ => none) exSetupEnv exSetupReqHub).outcome =
        RunOutcome.responded
          ⟨false, 500, some ("local variable email_body referenced before assignment")⟩ := by
  decide

set_option maxHeartbeats 4000000 in
/-- Counterexample for **C2**: a request supplying *both*
`internetMessageId` and `brief` is not rejected — the pipeline runs
(reserving a job number and creating the record) instead of returning the
400 validation error the claim requires for "supplying both". -/
theorem C2_counterexample_both_id_and_brief_accepted :
    Effect.reserveJobNumber ("LAB 056") ∈
      (process_setup (fun _ => none) exSetupEnv exSetupReqBoth).effects
    ∧ Effect.createProjectRecord ("LAB 056") ("Election Campaign") ∈
      (process_setup (fun _ => none) exSetupEnv exSetupReqBoth).effects
    ∧ (process_setup (fun _ => none) exSetupEnv exSetupReqBoth).outcome ≠
        RunOutcome.responded
          ⟨false, 400, some ("No internetMessageId or brief provided")⟩ := by
  decide

/-- **C2 (amended)** — Validation requires `clientCode` and *at least one*
of `sourceMessageId`/`brief`: a request supplying neither is rejected with
HTTP 400 before any pipeline step runs (empty effect trace); a request
supplying both is *not* rejected — the brief takes precedence and the
extraction client is never called on that path. -/
theorem C2_validation_clientCode_and_at_least_one_source :
    (∀ (parse : List Char → Option Brief) (env : SetupEnv) (req : SetupRequest),
       req.clientCode = "" →
       process_setup parse env req =
         ⟨.responded ⟨false, 400, some ("No client code provided")⟩, {}, []⟩)
    ∧ (∀ (parse : List Char → Option Brief) (env : SetupEnv) (req : SetupRequest),
       req.clientCode ≠ "" → req.internetMessageId = "" → req.brief = none →
       process_setup parse env req =
         ⟨.responded ⟨false, 400, some ("No internetMessageId or brief provided")⟩, {}, []⟩)
    ∧ (∀ (parse : List Char → Option Brief) (env : SetupEnv) (req : SetupRequest) (b : Brief),
       req.brief = some b →
       Effect.callExtraction ∉ (process_setup parse env req).effects) := by
  refine ⟨?_, ?_, ?_⟩
  · intro parse env req h
    simp [process_setup, h]
  · intro parse env req h1 h2 h3
    simp [process_setup, h1, h2, h3]
  · intro parse env req b hb
    by_cases h1 : req.clientCode = ""
    · simp [process_setup, h1]
    · unfold process_setup
      rw [if_neg h1]
      simp only [hb]
      have hcond : ((req.internetMessageId = "" : Bool) && (some b = none : Bool)) = false := by
        simp
      rw [hcond]
      simp only [Bool.false_eq_true, if_false]
      exact setupAfterBrief_effects_no_extraction env req b none [] (by simp)

/-- Witness for C2: each amended conjunct applied at a concrete input. -/
theorem C2_validation_witness :
    process_setup (fun _ => none) exSetupEnv {} =
      ⟨.responded ⟨false, 400, some ("No client code provided")⟩, {}, []⟩
    ∧ process_setup (fun _ => none) exSetupEnv { clientCode := "LAB" } =
      ⟨.responded ⟨false, 400, some ("No internetMessageId or brief provided")⟩, {}, []⟩
    ∧ Effect.callExtraction ∉
        (process_setup (fun _ => none) exSetupEnv exSetupReqHub).effects :=
  ⟨C2_validation_clientCode_and_at_least_one_source.1 _ _ _ rfl,
   C2_validation_clientCode_and_at_least_one_source.2.1 _ _ _ (by decide) rfl rfl,
   C2_validation_clientCode_and_at_least_one_source.2.2 _ _ _ exBrief rfl⟩

set_option maxHeartbeats 4000000 in
/-- **C5** — Evaluation at the failing input of the claim.  An update
request carrying attachments satisfies every hypothesis of the claim (a
resolvable job, a retrievable body, and an extraction that would parse),
yet the run creates *no* UpdateRecord: the handler's filing step calls
`file.file_to_sharepoint`, an attribute `utils/file.py` does not define
(it defines `file_to_dropbox`), so `AttributeError` aborts the run with
HTTP 500 before extraction — contradicting both the claim and the
handler's own comment that a filing failure must not abort the update.
For contrast, the identical request without attachments issues exactly one
UpdateRecord create and exactly one JobRecord patch. -/
theorem C5_attachment_request_aborts_without_update_record :
    (process_update (fun _ => some exAnalysis) exUpdateEnv exUpdateReqAttach).effects =
      [Effect.readEmailBody, Effect.mailFailure]
    ∧ (process_update (fun _ => some exAnalysis) exUpdateEnv exUpdateReqAttach).outcome =
        RunOutcome.responded
          ⟨false, 500, some ("module utils.file has no attribute file_to_sharepoint")⟩
    ∧ List.filter Effect.isStoreMutation
        (process_update (fun _ => some exAnalysis) exUpdateEnv exUpdateReqAttach).effects = []
    ∧ (List.filter isCreateUpdate
        (process_update (fun _ => some exAnalysis) exUpdateEnv exUpdateReq).effects).length = 1
    ∧ (List.filter isPatchProject
        (process_update (fun _ => some exAnalysis) exUpdateEnv exUpdateReq).effects).length = 1 := by
  decide

/-- A setup environment whose JobRecord-creation write fails. -/
def exSetupEnvCreateFail : SetupEnv :=
  { exSetupEnv with createProjectHttp := Except.error ("insert failed") }

/-- An update environment in which the job lookup finds nothing. -/
def exUpdateEnvNoJob : UpdateEnv :=
  { exUpdateEnv with projectLookup := Except.error ("Job LAB 055 not found") }

/-- An update environment whose UpdateRecord write fails. -/
def exUpdateEnvWriteFail : UpdateEnv :=
  { exUpdateEnv with writeUpdateHttp := Except.error ("insert failed") }

/-- An update environment whose extraction call raises. -/
def exUpdateEnvClaudeExc : UpdateEnv :=
  { exUpdateEnv with claudeResponse := Except.error () }

set_option maxHeartbeats 4000000 in
/-- Counterexample for **C3**: a fatal JobRecord-creation write failure in
the setup pipeline is returned with HTTP *400* (`return jsonify(...), 400`
in `process_setup`), not HTTP 200 with `success:false` as the claim states
for fatal store write failures. -/
theorem C3_counterexample_setup_create_failure_yields_400 :
    (process_setup (fun _ => some exBrief) exSetupEnvCreateFail exSetupReqEmail).outcome =
      RunOutcome.responded ⟨false, 400, some ("insert failed")⟩
    ∧ (process_setup (fun _ => some exBrief) exSetupEnvCreateFail exSetupReqEmail).outcome ≠
      RunOutcome.responded ⟨false, 200, some ("insert failed")⟩ := by
  decide

/-- **C3 (amended)** — Status-code mapping of the two orchestrators.
Missing required fields yield HTTP 400; extraction parse errors and
unhandled exceptions yield HTTP 500; job-not-found and the update
pipeline's fatal UpdateRecord write failure yield HTTP 200 with
`success:false` — but the setup pipeline's fatal JobRecord-creation
failure is returned with HTTP 400 (with `success:false`), not 200. -/
theorem C3_status_code_mapping :
    (∀ (parse : List Char → Option UpdateAnalysis) (env : UpdateEnv) (req : UpdateRequest),
       req.jobNumber = "" →
       (process_update parse env req).outcome =
         RunOutcome.responded ⟨false, 400, some ("No job number provided")⟩)
    ∧ (∀ (parse : List Char → Option UpdateAnalysis) (env : UpdateEnv) (req : UpdateRequest),
       req.jobNumber ≠ "" → req.internetMessageId = "" →
       (process_update parse env req).outcome =
         RunOutcome.responded ⟨false, 400, some ("No internetMessageId provided")⟩)
    ∧ (∀ (parse : List Char → Option Brief) (env : SetupEnv) (req : SetupRequest),
       req.clientCode = "" →
       (process_setup parse env req).outcome =
         RunOutcome.responded ⟨false, 400, some ("No client code provided")⟩)
    ∧ (∀ (parse : List Char → Option Brief) (env : SetupEnv) (req : SetupRequest),
       req.clientCode ≠ "" → req.internetMessageId = "" → req.brief = none →
       (process_setup parse env req).outcome =
         RunOutcome.responded ⟨false, 400, some ("No internetMessageId or brief provided")⟩)
    ∧ (∀ (parse : List Char → Option UpdateAnalysis) (env : UpdateEnv) (req : UpdateRequest)
         (raw b rid f : String) (info : ProjectInfo),
       req.jobNumber ≠ "" → req.internetMessageId ≠ "" → req.hasAttachments = false →
       env.airtableConfigured = true → env.emailBody = some b →
       env.projectLookup = Except.ok (rid, info) → env.claudeResponse = Except.ok raw →
       parse (strip_markdown_json raw.data) = none →
       get_first_name req.senderName = Except.ok f →
       (process_update parse env req).outcome =
         RunOutcome.responded ⟨false, 500, some ("Invalid JSON")⟩)
    ∧ (∀ (parse : List Char → Option UpdateAnalysis) (env : UpdateEnv) (req : UpdateRequest)
         (b rid f : String) (info : ProjectInfo),
       req.jobNumber ≠ "" → req.internetMessageId ≠ "" → req.hasAttachments = false →
       env.airtableConfigured = true → env.emailBody = some b →
       env.projectLookup = Except.ok (rid, info) →
       env.claudeResponse = Except.error () →
       get_first_name req.senderName = Except.ok f →
       (process_update parse env req).outcome =
         RunOutcome.responded ⟨false, 500, some ("extraction request failed")⟩)
    ∧ (∀ (parse : List Char → Option UpdateAnalysis) (env : UpdateEnv) (req : UpdateRequest)
         (b msg f : String),
       req.jobNumber ≠ "" → req.internetMessageId ≠ "" → req.hasAttachments = false →
       env.airtableConfigured = true → env.emailBody = some b →
       env.projectLookup = Except.error msg →
       get_first_name req.senderName = Except.ok f →
       (process_update parse env req).outcome =
         RunOutcome.responded ⟨false, 200, some msg⟩)
    ∧ (∀ (parse : List Char → Option UpdateAnalysis) (env : UpdateEnv) (req : UpdateRequest)
         (raw b rid werr f : String) (info : ProjectInfo) (analysis : UpdateAnalysis),
       req.jobNumber ≠ "" → req.internetMessageId ≠ "" → req.hasAttachments = false →
       env.airtableConfigured = true → env.emailBody = some b →
       env.projectLookup = Except.ok (rid, info) → rid ≠ "" →
       env.claudeResponse = Except.ok raw →
       parse (strip_markdown_json raw.data) = some analysis →
       env.writeUpdateHttp = Except.error werr →
       get_first_name req.senderName = Except.ok f →
       (process_update parse env req).outcome =
         RunOutcome.responded ⟨false, 200, some werr⟩)
    ∧ (∀ (parse : List Char → Option Brief) (env : SetupEnv) (req : SetupRequest)
         (raw body f : String),
       req.clientCode ≠ "" → req.brief = none → req.internetMessageId ≠ "" →
       env.airtableConfigured = true → env.emailBody = some body →
       env.claudeResponse = Except.ok raw →
       parse (strip_markdown_json raw.data) = none →
       get_first_name req.senderName = Except.ok f →
       (process_setup parse env req).outcome =
         RunOutcome.responded ⟨false, 500, some ("Invalid JSON")⟩)
    ∧ (∀ (parse : List Char → Option Brief) (env : SetupEnv) (req : SetupRequest)
         (jn crid msg f : String) (tid : Option String) (brief : Brief),
       req.clientCode ≠ "" → req.brief = some brief →
       env.airtableConfigured = true → env.reserve = Except.ok (jn, crid, tid) →
       jn ≠ "" → brief.jobName.getD ("New Job") ≠ "" →
       env.createProjectHttp = Except.error msg →
       get_first_name req.senderName = Except.ok f →
       (process_setup parse env req).outcome =
         RunOutcome.responded ⟨false, 400, some msg⟩) := by
  refine ⟨?_, ?_, ?_, ?_, ?_, ?_, ?_, ?_, ?_, ?_⟩
  · intro parse env req h
    simp [process_update, h]
  · intro parse env req h1 h2
    simp [process_update, h1, h2]
  · intro parse env req h
    simp [process_setup, h]
  · intro parse env req h1 h2 h3
    simp [process_setup, h1, h2, h3]
  · intro parse env req raw b rid f info hjn hmid hatt hcfg hb hlk hcl hp hf
    cases hsf : send_failure env.postmanConfigured env.mailHttp req.senderName with
    | ok er =>
      simp [process_update, lookupEmailBody, lookupProject, Except.map, hsf,
        hjn, hmid, hatt, hcfg, hb, hlk, hcl, hp]
    | error e =>
      rw [send_failure, hf] at hsf
      exact absurd hsf (by simp [Except.map])
  · intro parse env req b rid f info hjn hmid hatt hcfg hb hlk hcl hf
    simp [process_update, updateExcHandler, send_failure, lookupEmailBody, lookupProject,
      Except.map, hjn, hmid, hatt, hcfg, hb, hlk, hcl, hf]
  · intro parse env req b msg f hjn hmid hatt hcfg hb hlk hf
    simp [process_update, updateFatal, send_failure, lookupEmailBody, lookupProject,
      Except.map, hjn, hmid, hatt, hcfg, hb, hlk, hf]
  · intro parse env req raw b rid werr f info analysis hjn hmid hatt hcfg hb hlk hrid hcl hp hw hf
    simp [process_update, updateFatal, send_failure, lookupEmailBody, lookupProject,
      writeUpdateRes, writeUpdateAttempted, Except.map,
      hjn, hmid, hatt, hcfg, hb, hlk, hrid, hcl, hp, hw, hf]
  · intro parse env req raw body f h1 h2 h3 h4 h5 h6 hp hf
    cases hsf : send_failure env.postmanConfigured env.mailHttp req.senderName with
    | ok er =>
      simp [process_setup, lookupEmailBody, Except.map, hsf,
        h1, h2, h3, h4, h5, h6, hp]
    | error e =>
      rw [send_failure, hf] at hsf
      exact absurd hsf (by simp [Except.map])
  · intro parse env req jn crid msg f tid brief h1 hb hcfg hres hjn hname hcp hf
    simp [process_setup, setupAfterBrief, setupFatal, send_failure, Except.map,
      h1, hb, hcfg, hres, hjn, hname, hcp, hf]

/-- Witness for C3: every conjunct applied at a concrete input. -/
theorem C3_status_code_mapping_witness :
    (process_update (fun _ => none) exUpdateEnv { internetMessageId := "mid1" }).outcome =
      RunOutcome.responded ⟨false, 400, some ("No job number provided")⟩
    ∧ (process_update (fun _ => none) exUpdateEnv { jobNumber := "LAB 055" }).outcome =
      RunOutcome.responded ⟨false, 400, some ("No internetMessageId provided")⟩
    ∧ (process_setup (fun _ => none) exSetupEnv {}).outcome =
      RunOutcome.responded ⟨false, 400, some ("No client code provided")⟩
    ∧ (process_setup (fun _ => none) exSetupEnv { clientCode := "LAB" }).outcome =
      RunOutcome.responded ⟨false, 400, some ("No internetMessageId or brief provided")⟩
    ∧ (process_update (fun _ => none) exUpdateEnv exUpdateReq).outcome =
      RunOutcome.responded ⟨false, 500, some ("Invalid JSON")⟩
    ∧ (process_update (fun _ => none) exUpdateEnvClaudeExc exUpdateReq).outcome =
      RunOutcome.responded ⟨false, 500, some ("extraction request failed")⟩
    ∧ (process_update (fun _ => none) exUpdateEnvNoJob exUpdateReq).outcome =
      RunOutcome.responded ⟨false, 200, some ("Job LAB 055 not found")⟩
    ∧ (process_update (fun _ => some exAnalysis) exUpdateEnvWriteFail exUpdateReq).outcome =
      RunOutcome.responded ⟨false, 200, some ("insert failed")⟩
    ∧ (process_setup (fun _ => none) exSetupEnv exSetupReqEmail).outcome =
      RunOutcome.responded ⟨false, 500, some ("Invalid JSON")⟩
    ∧ (process_setup (fun _ => some exBrief) exSetupEnvCreateFail exSetupReqHub).outcome =
      RunOutcome.responded ⟨false, 400, some ("insert failed")⟩ :=
  ⟨C3_status_code_mapping.1 _ _ _ rfl,
   C3_status_code_mapping.2.1 _ _ _ (by decide) rfl,
   C3_status_code_mapping.2.2.1 _ _ _ rfl,
   C3_status_code_mapping.2.2.2.1 _ _ _ (by decide) rfl rfl,
   C3_status_code_mapping.2.2.2.2.1 _ _ _ ("raw") ("Finished the landing page design")
     ("recJ1") ("Sam") exPatchProj
     (by decide) (by decide) rfl rfl rfl rfl rfl rfl (by decide),
   C3_status_code_mapping.2.2.2.2.2.1 _ _ _ ("Finished the landing page design")
     ("recJ1") ("Sam") exPatchProj
     (by decide) (by decide) rfl rfl rfl rfl rfl (by decide),
   C3_status_code_mapping.2.2.2.2.2.2.1 _ _ _ _ ("Job LAB 055 not found") ("Sam")
     (by decide) (by decide) rfl rfl rfl rfl (by decide),
   C3_status_code_mapping.2.2.2.2.2.2.2.1 _ _ _ ("raw") _ ("recJ1") ("insert failed") ("Sam")
     exPatchProj exAnalysis
     (by decide) (by decide) rfl rfl rfl rfl (by decide) rfl rfl rfl (by decide),
   C3_status_code_mapping.2.2.2.2.2.2.2.2.1 _ _ _ ("raw") _ ("Sam")
     (by decide) rfl (by decide) rfl rfl rfl rfl (by decide),
   C3_status_code_mapping.2.2.2.2.2.2.2.2.2 _ _ _ ("LAB 056") ("recC1") ("insert failed")
     ("Sam") (some ("team1")) exBrief
     (by decide) rfl rfl rfl (by decide) (by decide) rfl (by decide)⟩

/-- **C8** — Cost parsing and the non-fatal Tracker step.  The free-text
cost forms parse as claimed (`$2k` → 2000, `$5,000` → 5000, `2000` → 2000);
the estimate flag (`ballpark`) is true exactly when a non-empty cost string
was mentioned; and a Tracker-creation failure is recorded in the results
bag but never aborts the run — the pipeline still completes with a success
response. -/
theorem C8_cost_parse_and_tracker_nonfatal :
    parse_cost_spend ("$2k".data) = some 2000
    ∧ parse_cost_spend ("$5,000".data) = some 5000
    ∧ parse_cost_spend ("2000".data) = some 2000
    ∧ (∀ costs : Option String,
        ballparkFlag (costs.map String.data) = true ↔ ∃ s, costs = some s ∧ s ≠ "")
    ∧ (∀ (parse : List Char → Option Brief) (env : SetupEnv) (req : SetupRequest)
         (raw body jn crid prid terr f : String) (tid : Option String) (brief : Brief),
       req.clientCode ≠ "" → req.brief = none → req.internetMessageId ≠ "" →
       env.airtableConfigured = true → env.emailBody = some body →
       env.claudeResponse = Except.ok raw →
       parse (strip_markdown_json raw.data) = some brief →
       env.reserve = Except.ok (jn, crid, tid) → jn ≠ "" →
       brief.jobName.getD ("New Job") ≠ "" →
       env.createProjectHttp = Except.ok prid → prid ≠ "" →
       env.createTrackerHttp = Except.error terr →
       get_first_name req.senderName = Except.ok f →
       (process_setup parse env req).outcome = RunOutcome.responded ⟨true, 200, none⟩ ∧
       (process_setup parse env req).results.tracker = some (Except.error terr)) := by
  refine ⟨by decide, by decide, by decide, ?_, ?_⟩
  · intro costs
    cases costs with
    | none => simp [ballparkFlag]
    | some s =>
      simp [ballparkFlag, String.ext_iff]
      constructor
      · intro h
        exact ⟨s, rfl, h⟩
      · rintro ⟨t, he, h⟩
        rw [he]
        exact h
  · intro parse env req raw body jn crid prid terr f tid brief
      h1 h2 h3 h4 h5 h6 h7 h8 h9 h10 h11 h12 h13 h14
    simp [process_setup, setupAfterBrief, setupFatal, setupExcHandler, send_failure,
      send_setup_confirmation, lookupEmailBody, Except.map,
      h1, h2, h3, h4, h5, h6, h7, h8, h9, h10, h11, h12, h13, h14]

/-- Witness for C8: the tracker-failure scenario at concrete inputs. -/
theorem C8_cost_parse_and_tracker_nonfatal_witness :
    ballparkFlag ((some ("$2k")).map String.data) = true
    ∧ (process_setup (fun _ => some exBrief)
        { exSetupEnv with createTrackerHttp := Except.error ("tracker down") }
        exSetupReqEmail).outcome = RunOutcome.responded ⟨true, 200, none⟩
    ∧ (process_setup (fun _ => some exBrief)
        { exSetupEnv with createTrackerHttp := Except.error ("tracker down") }
        exSetupReqEmail).results.tracker = some (Except.error ("tracker down")) := by
  refine ⟨?_, ?_, ?_⟩
  · exact (C8_cost_parse_and_tracker_nonfatal.2.2.2.1 (some ("$2k"))).mpr
      ⟨"$2k", rfl, by decide⟩
  · exact (C8_cost_parse_and_tracker_nonfatal.2.2.2.2 _ _ _ ("raw")
      ("please set up a new job") ("LAB 056") ("recC1") ("recP1") ("tracker down") ("Sam")
      (some ("team1")) exBrief
      (by decide) rfl (by decide) rfl rfl rfl rfl rfl (by decide) (by decide) rfl
      (by decide) rfl (by decide)).1
  · exact (C8_cost_parse_and_tracker_nonfatal.2.2.2.2 _ _ _ ("raw")
      ("please set up a new job") ("LAB 056") ("recC1") ("recP1") ("tracker down") ("Sam")
      (some ("team1")) exBrief
      (by decide) rfl (by decide) rfl rfl rfl rfl rfl (by decide) (by decide) rfl
      (by decide) rfl (by decide)).2

/-- **C10** — Atomicity of the update pipeline on extraction-parse failure:
when the extraction output fails to parse, the run performs no record-store
mutation at all (no UpdateRecord create, no JobRecord patch — and in this
revision the filing step cannot mutate either, since it raises before any
move), and the run never returns a success response. -/
theorem C10_parse_failure_aborts_without_mutation :
    ∀ (parse : List Char → Option UpdateAnalysis) (env : UpdateEnv) (req : UpdateRequest)
      (raw b rid : String) (info : ProjectInfo),
      req.jobNumber ≠ "" → req.internetMessageId ≠ "" → req.hasAttachments = false →
      env.airtableConfigured = true → env.emailBody = some b →
      env.projectLookup = Except.ok (rid, info) →
      env.claudeResponse = Except.ok raw →
      parse (strip_markdown_json raw.data) = none →
      List.filter Effect.isStoreMutation (process_update parse env req).effects = []
      ∧ (∀ r, (process_update parse env req).outcome = RunOutcome.responded r →
          r.success = false) := by
  intro parse env req raw b rid info hjn hmid hatt hcfg hb hlk hcl hp
  cases hsf : send_failure env.postmanConfigured env.mailHttp req.senderName with
  | ok er =>
    simp [process_update, lookupEmailBody, lookupProject, Except.map, hsf,
      hjn, hmid, hatt, hcfg, hb, hlk, hcl, hp, Effect.isStoreMutation]
  | error e =>
    simp [process_update, lookupEmailBody, lookupProject, Except.map, hsf,
      hjn, hmid, hatt, hcfg, hb, hlk, hcl, hp, Effect.isStoreMutation]

/-- Witness for C10: the parse-failure run at concrete inputs performs no
store mutation and does not succeed. -/
theorem C10_parse_failure_aborts_without_mutation_witness :
    List.filter Effect.isStoreMutation
      (process_update (fun _ => none) exUpdateEnv exUpdateReq).effects = []
    ∧ (∀ r, (process_update (fun _ => none) exUpdateEnv exUpdateReq).outcome =
        RunOutcome.responded r → r.success = false) :=
  C10_parse_failure_aborts_without_mutation (fun _ => none) exUpdateEnv exUpdateReq
    ("raw") ("Finished the landing page design") ("recJ1") exPatchProj
    (by decide) (by decide) rfl rfl rfl rfl rfl rfl

end DotWorkers
